import Mathlib

/-!
Verification of the `next-result` TypeScript library (`src/index.ts`, bundled
in the repository next to `tsup.config.ts`).

The library is a closed set of pure helpers around a two-variant tagged union
`Result<T> = Ok<T> | Err`.  We embed the data model and every exported
function shallowly: TypeScript object literals become inductive constructors,
property reads become accessor functions, a function that can `throw` returns
`Except JSError`, and a promise that has settled is `Except ρ` where `ρ` is
the type of rejection reasons.
-/

namespace NextResult

/-- Model of a JavaScript `Error` object as produced by `new Error(message)`:
it carries exactly the message text.  The source never attaches any further
property (in particular no `code`) to a thrown error. -/
structure JSError where
  message : String
deriving Repr, DecidableEq

/-- The `Result<T>` union from the source.

* `Ok value` models the object literal `{ ok: true, value }` built by the
  producer `Ok(value: T)`.
* `Err error` models the object literal `{ ok: false, error }` built by the
  producer `Err(error: string)`.  Note the source constructor takes a single
  parameter; the object carries no `code` property. -/
inductive Result (α : Type) : Type where
  | Ok (value : α) : Result α
  | Err (error : String) : Result α
deriving Repr, DecidableEq

/-- Reading the `ok` property (the discriminant) of a Result object. -/
def Result.okF : Result α → Bool
  | .Ok _ => true
  | .Err _ => false

/-- Reading the `value` property.  On a failure object the property is not
assigned, so the read yields `undefined`, modelled as `none`. -/
def Result.valueF : Result α → Option α
  | .Ok v => some v
  | .Err _ => none

/-- Reading the `error` property.  On a success object the property is not
assigned, so the read yields `undefined`, modelled as `none`. -/
def Result.errorF : Result α → Option String
  | .Ok _ => none
  | .Err m => some m

/-- Reading the `code` property of a Result object.  Neither object literal in
the source (`{ ok: true, value }` and `{ ok: false, error }`) assigns a `code`
property, so on every constructed value the read yields `undefined`,
modelled as `none`. -/
def Result.codeF : Result α → Option String := fun _ => none

/-- A JavaScript call `Err(m, c)` with two arguments.  The declared parameter
list of the source constructor is `(error: string)` only, so the second
argument is dropped by the JavaScript calling convention and the result is
exactly that of the one-argument call. -/
def ErrJS (error : String) (code : String) : Result α :=
  let _ := code
  Result.Err error

/-- The predicate `isOk`, source: `(result) => result.ok`. -/
def isOk (r : Result α) : Bool := r.okF

/-- The predicate `isErr`, source: `(result) => !result.ok`. -/
def isErr (r : Result α) : Bool := !r.okF

/-- The extractor `optionOk`, source: `isOk(result) ? result.value : null`,
under the generic view where the type parameter `T` does not itself contain
`null`; the absent sentinel `null` is modelled as `none`. -/
def optionOk : Result α → Option α
  | .Ok v => some v
  | .Err _ => none

/-- The extractor `optionErr`, source: `isErr(result) ? result.error : null`;
the absent sentinel `null` is modelled as `none`. -/
def optionErr : Result α → Option String
  | .Ok _ => none
  | .Err m => some m

/-- The synchronous unwrap, source:
`if (isOk(result)) { return result.value; } throw new Error(result.error);`.
A `throw` is modelled as `Except.error`. -/
def unwrap : Result α → Except JSError α
  | .Ok v => Except.ok v
  | .Err m => Except.error ⟨m⟩

/-- The defaulting unwrap, source:
`if (isOk(result)) { return result.value; } return defaultValue;`.
It contains no `throw`, so it is a total pure function. -/
def unwrapOrDefault (r : Result α) (defaultValue : α) : α :=
  match r with
  | .Ok v => v
  | .Err _ => defaultValue

/-- The `source` parameter of the async unwrap functions: either an already
pending computation that settles to a `Result` (a resolved `Except.ok` or a
rejection `Except.error` with a reason of type `ρ`), or a zero-argument
function producing such a computation. -/
inductive PSource (ρ α : Type) : Type where
  | prom (p : Except ρ (Result α)) : PSource ρ α
  | func (f : Unit → Except ρ (Result α)) : PSource ρ α

/-- Instrumented translation of the source expression
`await (typeof fn === "function" ? fn() : fn)`: the settled computation, paired
with the number of times the supplied function is applied by that expression
(the `func` branch applies it exactly once; the `prom` branch never does). -/
def resolveSource : PSource ρ α → Except ρ (Result α) × Nat
  | .prom p => (p, 0)
  | .func f => (f (), 1)

/-- The awaited computation a source settles to (first component of the
instrumented translation). -/
def toPromise (src : PSource ρ α) : Except ρ (Result α) :=
  (resolveSource src).1

/-- The async unwrap, source:
`const result = await (typeof fn === "function" ? fn() : fn);
 const value = unwrap(result); return value;`.
Awaiting a rejected computation re-raises its reason unchanged; a `JSError`
thrown by `unwrap` becomes a rejection of the returned promise via the
embedding `emb` of `Error` objects into the rejection-reason type `ρ`. -/
def unwrapPromise (emb : JSError → ρ) (src : PSource ρ α) : Except ρ α :=
  match toPromise src with
  | .error e => .error e
  | .ok r =>
    match unwrap r with
    | .ok v => .ok v
    | .error j => .error (emb j)

/-- The defaulting async unwrap, source:
`const result = await (typeof fn === "function" ? fn() : fn);
 return unwrapOrDefault(result, defaultValue);`.
The body after the await contains no `throw`, so the only rejection path is
the awaited computation itself rejecting. -/
def unwrapPromiseOrDefault (src : PSource ρ α) (defaultValue : α) :
    Except ρ α :=
  match toPromise src with
  | .error e => .error e
  | .ok r => .ok (unwrapOrDefault r defaultValue)

/-- A small universe of JavaScript runtime values, enough to express a
success payload that is itself `null`.  Used to model the extractors at the
erased (runtime) level, where `Option<T> = T | null` collapses when `null`
already inhabits `T`. -/
inductive JSVal : Type where
  | null : JSVal
  | num (n : Int) : JSVal
  | str (s : String) : JSVal
  | boolean (b : Bool) : JSVal
deriving Repr, DecidableEq

/-- The extractor `optionOk` at the runtime level, over the value universe
`JSVal`: source `isOk(result) ? result.value : null`, where the returned type
`T | null` is again a `JSVal` and the absent sentinel is the value
`JSVal.null` itself. -/
def optionOkJS (r : Result JSVal) : JSVal :=
  match r with
  | .Ok v => v
  | .Err _ => JSVal.null

end NextResult

namespace NextResult

/-- C2: for every value `v`, `unwrap (Ok v)` returns `v` without raising, and
for every message `m`, `unwrap (Err m)` raises a failure that is exactly an
`Error` whose message text equals `m` — in particular no `code` travels with
the raised failure. -/
theorem unwrap_semantics (α : Type) (v : α) (m : String) :
    unwrap (Result.Ok v) = Except.ok v
    ∧ unwrap (Result.Err m : Result α) = Except.error ⟨m⟩
    ∧ (⟨m⟩ : JSError).message = m := by
  refine ⟨rfl, rfl, rfl⟩

/-- C5: over the closed two-variant union, `isOk` is true exactly on the
success tag, `isErr` is true exactly on the failure tag, and the two
predicates are pointwise complementary — never both true nor both false. -/
theorem isOk_isErr_complements (α : Type) (r : Result α) :
    (isOk r = true ↔ ∃ v, r = Result.Ok v)
    ∧ (isErr r = true ↔ ∃ m, r = Result.Err m)
    ∧ isErr r = !isOk r := by
  rcases r with v | m
  · exact ⟨⟨fun _ => ⟨v, rfl⟩, fun _ => rfl⟩,
      ⟨fun h => by simp [isErr, Result.okF] at h, fun ⟨m, h⟩ => by cases h⟩,
      rfl⟩
  · exact ⟨⟨fun h => by simp [isOk, Result.okF] at h, fun ⟨v, h⟩ => by cases h⟩,
      ⟨fun _ => ⟨m, rfl⟩, fun _ => rfl⟩,
      rfl⟩

/-- C6: for every value `v`, message `m` and default `d`,
`unwrapOrDefault (Ok v) d = v` and `unwrapOrDefault (Err m) d = d`; the
function is total and pure, hence never raises. -/
theorem unwrapOrDefault_semantics (α : Type) (v : α) (m : String) (d : α) :
    unwrapOrDefault (Result.Ok v) d = v
    ∧ unwrapOrDefault (Result.Err m : Result α) d = d :=
  ⟨rfl, rfl⟩

/-- C8: `optionOk` returns the success value on the success tag and the
absent sentinel otherwise; `optionErr` returns the error message (the message
only — a constructed failure carries nothing else) on the failure tag and the
absent sentinel otherwise.  Both are total pure functions, hence never
throw. -/
theorem optionOk_optionErr_semantics (α : Type) (v : α) (m : String) :
    optionOk (Result.Ok v) = some v
    ∧ optionOk (Result.Err m : Result α) = none
    ∧ optionErr (Result.Err m : Result α) = some m
    ∧ optionErr (Result.Ok v) = none :=
  ⟨rfl, rfl, rfl, rfl⟩

/-- C3: `unwrapPromise` applies exactly the failure semantics of `unwrap` to
the awaited Result (returns the success value; on a failure rejects with an
`Error` carrying the message and nothing else); a zero-argument function
source is applied exactly once by the awaited expression and yields the same
outcome as passing the computation it produces directly. -/
theorem unwrapPromise_semantics (ρ α : Type) (emb : JSError → ρ)
    (v : α) (m : String) (f : Unit → Except ρ (Result α)) :
    unwrapPromise emb (PSource.prom (Except.ok (Result.Ok v))) = Except.ok v
    ∧ unwrapPromise emb (PSource.prom (Except.ok (Result.Err m)) : PSource ρ α)
        = Except.error (emb ⟨m⟩)
    ∧ (resolveSource (PSource.func f)).2 = 1
    ∧ unwrapPromise emb (PSource.func f)
        = unwrapPromise emb (PSource.prom (f ())) :=
  ⟨rfl, rfl, rfl, rfl⟩

/-- C4: when the supplied asynchronous computation rejects outright with
reason `e` (in either source shape), both `unwrapPromise` and
`unwrapPromiseOrDefault` reject with exactly the same reason `e`: no default
is substituted, nothing is wrapped, nothing is altered. -/
theorem rejection_passthrough (ρ α : Type) (emb : JSError → ρ)
    (e : ρ) (d : α) :
    unwrapPromise emb (PSource.prom (Except.error e) : PSource ρ α)
        = Except.error e
    ∧ unwrapPromise emb (PSource.func (fun _ => Except.error e) : PSource ρ α)
        = Except.error e
    ∧ unwrapPromiseOrDefault (PSource.prom (Except.error e)) d
        = Except.error e
    ∧ unwrapPromiseOrDefault (PSource.func (fun _ => Except.error e)) d
        = Except.error e :=
  ⟨rfl, rfl, rfl, rfl⟩

/-- C7: `unwrapPromiseOrDefault` handles both source shapes the same way as
`unwrapPromise`, returns the success value when the awaited Result is
success-tagged, and returns the default instead of raising when it is
failure-tagged. -/
theorem unwrapPromiseOrDefault_semantics (ρ α : Type)
    (v : α) (m : String) (d : α) (f : Unit → Except ρ (Result α)) :
    unwrapPromiseOrDefault (PSource.prom (Except.ok (Result.Ok v)) : PSource ρ α) d
        = Except.ok v
    ∧ unwrapPromiseOrDefault (PSource.prom (Except.ok (Result.Err m)) : PSource ρ α) d
        = Except.ok d
    ∧ unwrapPromiseOrDefault (PSource.func f) d
        = unwrapPromiseOrDefault (PSource.prom (f ())) d :=
  ⟨rfl, rfl, rfl⟩

/-- C1 (code bug): the repository's own tests and README document
`Err("error message", "NOT_FOUND")` as storing the code verbatim so that
`.code` reads back `"NOT_FOUND"`, but the implementation declares a single
parameter and assigns no `code` property: evaluating the code at that very
input yields the object `{ ok: false, error: "error message" }` whose `code`
read is `undefined`, not `"NOT_FOUND"`. -/
theorem errJS_drops_code :
    (ErrJS "error message" "NOT_FOUND" : Result Nat)
        = Result.Err "error message"
    ∧ Result.codeF (ErrJS "error message" "NOT_FOUND" : Result Nat) = none
    ∧ (none : Option String) ≠ some "NOT_FOUND" := by
  refine ⟨rfl, rfl, by decide⟩

/-- C9: every value the `Err` constructor produces has exactly the shape
`{ ok: false, error: m }`: the discriminant reads `false`, the `error`
property reads `m`, and the `value` and `code` properties are absent
(`undefined`), no matter how many arguments the caller supplies — a second
argument is dropped by the calling convention. -/
theorem err_has_no_code (α : Type) (m c : String) :
    (ErrJS m c : Result α) = Result.Err m
    ∧ Result.okF (Result.Err m : Result α) = false
    ∧ Result.errorF (Result.Err m : Result α) = some m
    ∧ Result.valueF (Result.Err m : Result α) = none
    ∧ Result.codeF (Result.Err m : Result α) = none :=
  ⟨rfl, rfl, rfl, rfl, rfl⟩

/-- C10: at the runtime level the absent sentinel of `optionOk` is the value
`null` itself, so a success carrying `null` and any failure produce the very
same output: a caller of `optionOk` cannot tell `Ok(null)` from a failure. -/
theorem optionOkJS_null_collapse (m : String) :
    optionOkJS (Result.Ok JSVal.null) = JSVal.null
    ∧ optionOkJS (Result.Err m) = JSVal.null
    ∧ optionOkJS (Result.Ok JSVal.null) = optionOkJS (Result.Err m) :=
  ⟨rfl, rfl, rfl⟩

end NextResult
